import Mathlib

/-!
Verification development for the adversarial-strategy debate engine
(`skills/adversarial-strategy/scripts/debate.py`).

The Python source is shallowly embedded: pure helpers become Lean
functions on `List Char` / `String`, the mutable `CostTracker` becomes
explicit state passing, the retry loop of `call_single_model` is a
fuel-indexed recursion over an abstract per-attempt outcome function,
the nondeterministic completion order of `call_models_parallel`
(`concurrent.futures.as_completed`) is an explicit permutation
parameter, and the on-disk session store becomes a map from session id
to session record.  Python `Optional[str]` truthiness (`if r.spec:`,
`not r.error`) is modelled by `pyTruthy`, which is false exactly on
`none` and on the empty string.  Dollar amounts (Python floats holding
exact decimal prices) are modelled as rationals.
-/

/-- Python truthiness of an `Optional[str]` value: `None` and `""` are
falsy, every other string is truthy. -/
def pyTruthy : Option String → Bool
  | none => false
  | some s => !(s == "")

/-- Index of the first occurrence of `pat` in `text` (Python `str.find`,
restricted to the found case); `none` when `pat` does not occur. -/
def firstOcc (pat : List Char) : List Char → Option Nat
  | [] => if pat.isPrefixOf ([] : List Char) then some 0 else none
  | c :: rest =>
    if pat.isPrefixOf (c :: rest) then some 0
    else (firstOcc pat rest).map (· + 1)

/-- Python `pat in s` (substring containment). -/
def pyContains (s pat : String) : Bool := (firstOcc pat.data s.data).isSome

/-- Python `str.strip()`: drop leading and trailing whitespace. -/
def pyStrip (l : List Char) : List Char :=
  ((l.dropWhile Char.isWhitespace).reverse.dropWhile Char.isWhitespace).reverse

/-- The literal begin marker `"[SPEC]"` used by `extract_spec`. -/
def SPEC_OPEN : List Char := "[SPEC]".data

/-- The literal end marker `"[/SPEC]"` used by `extract_spec`. -/
def SPEC_CLOSE : List Char := "[/SPEC]".data

/-- Core of `extract_spec` on character lists: `None` unless both
markers occur; otherwise the Python slice
`response[find(open)+len(open) : find(close)]`, stripped.  Nat
subtraction in `take` mirrors Python's empty slice when the start
position is at or past the end position. -/
def extractCore (response : List Char) : Option (List Char) :=
  match firstOcc SPEC_OPEN response, firstOcc SPEC_CLOSE response with
  | some b, some e =>
      some (pyStrip ((response.drop (b + SPEC_OPEN.length)).take
        (e - (b + SPEC_OPEN.length))))
  | _, _ => none

/-- `extract_spec` from debate.py. -/
def extract_spec (response : String) : Option String :=
  (extractCore response.data).map (fun l => String.mk l)

/-- Per-model price entry of `MODEL_COSTS` (dollars per million tokens). -/
structure ModelCost where
  input : ℚ
  output : ℚ
deriving DecidableEq

/-- The `MODEL_COSTS` table from debate.py, as a lookup function. -/
def MODEL_COSTS (model : String) : Option ModelCost :=
  if model = "gpt-5.2" then some ⟨1.75, 14.00⟩
  else if model = "gpt-5.2-pro" then some ⟨15.00, 60.00⟩
  else if model = "o1" then some ⟨15.00, 60.00⟩
  else if model = "claude-opus-4-5" then some ⟨5.00, 25.00⟩
  else none

/-- `DEFAULT_COST` from debate.py. -/
def DEFAULT_COST : ModelCost := ⟨5.00, 15.00⟩

/-- One entry of `CostTracker.by_model`. -/
structure ModelCostEntry where
  input_tokens : Nat
  output_tokens : Nat
  cost : ℚ
deriving DecidableEq

/-- The mutable `CostTracker` dataclass, as a value threaded through
calls.  The Python dict `by_model` is a partial map from model id. -/
structure CostTracker where
  total_input_tokens : Nat := 0
  total_output_tokens : Nat := 0
  total_cost : ℚ := 0
  by_model : String → Option ModelCostEntry := fun _ => none

/-- The fresh tracker `CostTracker()`. -/
def emptyTracker : CostTracker := {}

/-- `CostTracker.add` from debate.py: price lookup with default,
incremental cost formula, update of totals and of the per-model
subtotal; returns the incremental cost together with the new state. -/
def CostTracker.add (t : CostTracker) (model : String)
    (input_tokens output_tokens : Nat) : ℚ × CostTracker :=
  let costs := (MODEL_COSTS model).getD DEFAULT_COST
  let cost := (input_tokens : ℚ) / 1000000 * costs.input +
    (output_tokens : ℚ) / 1000000 * costs.output
  let prev := (t.by_model model).getD ⟨0, 0, 0⟩
  (cost,
    { total_input_tokens := t.total_input_tokens + input_tokens
      total_output_tokens := t.total_output_tokens + output_tokens
      total_cost := t.total_cost + cost
      by_model := fun m =>
        if m = model then
          some ⟨prev.input_tokens + input_tokens,
            prev.output_tokens + output_tokens, prev.cost + cost⟩
        else t.by_model m })

/-- The `ModelResponse` dataclass. -/
structure ModelResponse where
  model : String
  response : String
  agreed : Bool
  spec : Option String
  error : Option String := none
  input_tokens : Nat := 0
  output_tokens : Nat := 0
  cost : ℚ := 0
deriving DecidableEq

/-- Result of one successful `completion(...)` call: the content string
and, when the provider reported usage, the prompt/completion token
pair. -/
structure LLMResult where
  content : String
  usage : Option (Nat × Nat)

/-- `MAX_RETRIES` from debate.py. -/
def MAX_RETRIES : Nat := 3

/-- `RETRY_BASE_DELAY` from debate.py (seconds, exact value 1.0). -/
def RETRY_BASE_DELAY : ℚ := 1

/-- The error-path `ModelResponse(model=model, response="",
agreed=False, spec=None, error=last_error)` with dataclass defaults. -/
def ModelResponse.ofError (model : String) (e : Option String) :
    ModelResponse :=
  { model := model, response := "", agreed := false, spec := none
    error := e }

/-- The retry loop of `call_single_model`: `attempt` is the 0-indexed
attempt counter, `remaining` the number of loop iterations still
available (initially `MAX_RETRIES`), `delays` the back-off sleeps
performed so far.  `attempts` gives each attempt's outcome (`.error`
models a raised exception).  Returns the response, the tracker after
the call, and the observed delays. -/
def callSingleLoop (model : String)
    (attempts : Nat → Except String LLMResult) (tracker : CostTracker) :
    Nat → Nat → List ℚ → ModelResponse × CostTracker × List ℚ
  | _, 0, delays => (ModelResponse.ofError model none, tracker, delays)
  | attempt, remaining + 1, delays =>
    match attempts attempt with
    | Except.ok r =>
      let inTok := (r.usage.map Prod.fst).getD 0
      let outTok := (r.usage.map Prod.snd).getD 0
      let added := tracker.add model inTok outTok
      ({ model := model, response := r.content
         agreed := pyContains r.content "[AGREE]"
         spec := extract_spec r.content, error := none
         input_tokens := inTok, output_tokens := outTok
         cost := added.1 }, added.2, delays)
    | Except.error e =>
      if remaining = 0 then
        (ModelResponse.ofError model (some e), tracker, delays)
      else
        callSingleLoop model attempts tracker (attempt + 1) remaining
          (delays ++ [RETRY_BASE_DELAY * 2 ^ attempt])

/-- `call_single_model` from debate.py, abstracted over the per-attempt
outcome of the underlying `completion` call. -/
def call_single_model (model : String)
    (attempts : Nat → Except String LLMResult) (tracker : CostTracker) :
    ModelResponse × CostTracker × List ℚ :=
  callSingleLoop model attempts tracker 0 MAX_RETRIES []

/-- `call_models_parallel` from debate.py: one response per roster
entry, collected in the order `concurrent.futures.as_completed` yields
the futures.  `respond` is the (deterministic) per-model result of
`call_single_model`; `order` is the completion order, as a list of
roster indices. -/
def call_models_parallel (models : List String)
    (respond : String → ModelResponse)
    (order : List (Fin models.length)) : List ModelResponse :=
  order.map (fun i => respond (models.get i))

/-- The filter `successful = [r for r in results if not r.error]`. -/
def successfulOf (results : List ModelResponse) : List ModelResponse :=
  results.filter (fun r => !pyTruthy r.error)

/-- `all_agreed = all(r.agreed for r in successful) if successful else
False` (debate.py lines 960-961). -/
def all_agreed (results : List ModelResponse) : Bool :=
  if (successfulOf results).isEmpty then false
  else (successfulOf results).all (·.agreed)

/-- The scan `for r in successful: if r.spec: latest_spec = r.spec;
break` starting from `latest_spec = spec`. -/
def getLatestSpec (spec : String) : List ModelResponse → String
  | [] => spec
  | r :: rest =>
    if pyTruthy r.spec then r.spec.getD spec else getLatestSpec spec rest

/-- Next-artifact selection of debate.py lines 968-973: scan the
error-free responses, in the order results were collected, for the
first truthy extracted spec; keep `spec` if none. -/
def selectNextSpec (spec : String) (results : List ModelResponse) :
    String :=
  getLatestSpec spec (successfulOf results)

/-- One `{"model": ..., "agreed": ..., "error": ...}` history record. -/
structure ModelSummary where
  model : String
  agreed : Bool
  error : Option String
deriving DecidableEq

/-- One entry appended to `session_state.history` per round. -/
structure HistoryEntry where
  round : Nat
  all_agreed : Bool
  models : List ModelSummary
deriving DecidableEq

/-- The `SessionState` dataclass. -/
structure SessionState where
  session_id : String
  spec : String
  round : Nat
  models : List String
  focus : Option String := none
  persona : Option String := none
  preserve_intent : Bool := false
  created_at : String := ""
  updated_at : String := ""
  history : List HistoryEntry := []
deriving DecidableEq

/-- The sessions directory, as a map from session id to record. -/
def SessionStore := String → Option SessionState

/-- `SessionState.save`: set `updated_at` and write the full record
under the session id (full-snapshot overwrite). -/
def saveSession (s : SessionState) (now : String) (store : SessionStore) :
    SessionStore :=
  fun id =>
    if id = s.session_id then some { s with updated_at := now }
    else store id

/-- `SessionState.load`: read the record for `id`, if present. -/
def loadSession (id : String) (store : SessionStore) :
    Option SessionState :=
  store id

/-- Session creation (debate.py lines 931-941): fresh record with the
caller's round number and empty history. -/
def createSession (id spec : String) (round : Nat) (models : List String)
    (focus persona : Option String) (preserve_intent : Bool)
    (now : String) : SessionState :=
  { session_id := id, spec := spec, round := round, models := models
    focus := focus, persona := persona
    preserve_intent := preserve_intent, created_at := now }

/-- The per-round session update of debate.py lines 975-984: replace
the artifact with the selected next spec, advance the round counter by
one, and append exactly one history entry recording round number,
convergence flag and per-model `{model, agreed, error}` tuples. -/
def updateSessionAfterRound (s : SessionState) (roundNum : Nat)
    (latest : String) (allAgreed : Bool)
    (results : List ModelResponse) : SessionState :=
  { s with
    spec := latest
    round := roundNum + 1
    history := s.history ++
      [{ round := roundNum, all_agreed := allAgreed
         models := results.map (fun r =>
           { model := r.model, agreed := r.agreed, error := r.error }) }] }

/-! Concrete responses and attempt behaviours used as example inputs. -/

/-- An error-free response that agreed and extracted nothing. -/
def respAgreeA : ModelResponse :=
  { model := "A", response := "[AGREE]", agreed := true, spec := none }

/-- A response whose every attempt failed (error set). -/
def respErrorB : ModelResponse := ModelResponse.ofError "B" (some "timeout")

/-- An error-free response that disagreed and extracted nothing. -/
def respDisagreeB : ModelResponse :=
  { model := "B", response := "critique", agreed := false, spec := none }

/-- Scenario response: critic1 agrees, offers no extraction. -/
def respCritic1Agrees : ModelResponse :=
  { model := "critic1", response := "[AGREE]", agreed := true, spec := none }

/-- Scenario response: critic2 disagrees and extracts `"Revised V2"`. -/
def respCritic2Revises : ModelResponse :=
  { model := "critic2", response := "critique [SPEC]Revised V2[/SPEC]"
    agreed := false, spec := some "Revised V2" }

/-- A two-critic roster. -/
def rosterTwo : List String := ["critic1", "critic2"]

/-- Per-model responses where each critic extracts a distinct artifact. -/
def respondTwo : String → ModelResponse := fun m =>
  if m = "critic1" then
    { model := "critic1", response := "r1", agreed := false, spec := some "A1" }
  else
    { model := "critic2", response := "r2", agreed := false, spec := some "A2" }

/-- A completion order in which critic2 finishes before critic1. -/
def swappedOrder : List (Fin rosterTwo.length) := [⟨1, by decide⟩, ⟨0, by decide⟩]

/-- Attempt behaviour: the first two attempts raise, the third succeeds. -/
def failTwiceAttempts : Nat → Except String LLMResult := fun n =>
  if n = 2 then Except.ok ⟨"verdict [AGREE]", none⟩ else Except.error "boom"

/-- Attempt behaviour: every attempt raises. -/
def allFailAttempts : Nat → Except String LLMResult :=
  fun _ => Except.error "boom"

/-! Helper lemmas about the embedded operations. -/

/-- A response with a falsy `spec` is skipped by the selection scan. -/
lemma getLatestSpec_cons_skip (spec : String) (r : ModelResponse)
    (l : List ModelResponse) (h : pyTruthy r.spec = false) :
    getLatestSpec spec (r :: l) = getLatestSpec spec l := by
  simp [getLatestSpec, h]

/-- A response with a non-empty extracted spec is selected immediately. -/
lemma getLatestSpec_cons_take (spec : String) (r : ModelResponse)
    (l : List ModelResponse) (s : String) (hs : r.spec = some s)
    (h : ¬ s = "") : getLatestSpec spec (r :: l) = s := by
  simp [getLatestSpec, hs, pyTruthy, h]

/-- The selection scan never produces the empty string from a non-empty
starting artifact. -/
lemma getLatestSpec_ne_empty (spec : String) (l : List ModelResponse)
    (h : ¬ spec = "") : ¬ getLatestSpec spec l = "" := by
  induction l with
  | nil => simpa [getLatestSpec] using h
  | cons r rest ih =>
    cases hr : r.spec with
    | none =>
      rw [getLatestSpec_cons_skip _ _ _ (by simp [pyTruthy, hr])]
      exact ih
    | some s =>
      by_cases hs : s = ""
      · rw [getLatestSpec_cons_skip _ _ _ (by simp [pyTruthy, hr, hs])]
        exact ih
      · rw [getLatestSpec_cons_take _ _ _ s hr hs]
        exact hs

/-- If no scanned response has a truthy spec, the artifact is kept. -/
lemma getLatestSpec_unchanged (spec : String) (l : List ModelResponse)
    (h : ∀ r ∈ l, pyTruthy r.spec = false) :
    getLatestSpec spec l = spec := by
  induction l with
  | nil => rfl
  | cons r rest ih =>
    rw [getLatestSpec_cons_skip _ _ _ (h r (by simp))]
    exact ih (fun x hx => h x (by simp [hx]))

/-- The first response (in scan order) with a non-empty spec wins. -/
lemma getLatestSpec_append_first (spec : String) (l1 : List ModelResponse)
    (r : ModelResponse) (l2 : List ModelResponse) (s : String)
    (h1 : ∀ x ∈ l1, pyTruthy x.spec = false)
    (hs : r.spec = some s) (hne : ¬ s = "") :
    getLatestSpec spec (l1 ++ r :: l2) = s := by
  induction l1 with
  | nil => simpa using getLatestSpec_cons_take spec r l2 s hs hne
  | cons x rest ih =>
    rw [List.cons_append, getLatestSpec_cons_skip _ _ _ (h1 x (by simp))]
    exact ih (fun y hy => h1 y (by simp [hy]))

/-- The error filter distributes over append. -/
lemma successfulOf_append (l1 l2 : List ModelResponse) :
    successfulOf (l1 ++ l2) = successfulOf l1 ++ successfulOf l2 := by
  simp [successfulOf]

/-- The error filter keeps a response with a falsy error field. -/
lemma successfulOf_cons_keep (r : ModelResponse) (l : List ModelResponse)
    (h : pyTruthy r.error = false) :
    successfulOf (r :: l) = r :: successfulOf l := by
  simp [successfulOf, List.filter_cons, h]

/-- Members of the filtered list are members with falsy error field. -/
lemma mem_successfulOf {r : ModelResponse} {l : List ModelResponse}
    (h : r ∈ successfulOf l) : r ∈ l ∧ pyTruthy r.error = false := by
  have := List.mem_filter.mp h
  exact ⟨this.1, by simpa using this.2⟩

/-- One unfolding step of the retry loop. -/
lemma callSingleLoop_step (model : String)
    (attempts : Nat → Except String LLMResult) (tracker : CostTracker)
    (attempt n : Nat) (delays : List ℚ) :
    callSingleLoop model attempts tracker attempt (n + 1) delays =
      match attempts attempt with
      | Except.ok r =>
        let inTok := (r.usage.map Prod.fst).getD 0
        let outTok := (r.usage.map Prod.snd).getD 0
        let added := tracker.add model inTok outTok
        ({ model := model, response := r.content
           agreed := pyContains r.content "[AGREE]"
           spec := extract_spec r.content, error := none
           input_tokens := inTok, output_tokens := outTok
           cost := added.1 }, added.2, delays)
      | Except.error e =>
        if n = 0 then
          (ModelResponse.ofError model (some e), tracker, delays)
        else
          callSingleLoop model attempts tracker (attempt + 1) n
            (delays ++ [RETRY_BASE_DELAY * 2 ^ attempt]) := rfl

/-- When the retry loop reports an error, the response is exactly the
error-path record and the tracker is returned untouched. -/
lemma callSingleLoop_error_inv (model : String)
    (attempts : Nat → Except String LLMResult) :
    ∀ (remaining attempt : Nat) (tracker : CostTracker) (delays : List ℚ)
      (e : String),
      (callSingleLoop model attempts tracker attempt remaining delays).1.error
        = some e →
      (callSingleLoop model attempts tracker attempt remaining delays).1
          = ModelResponse.ofError model (some e)
        ∧ (callSingleLoop model attempts tracker attempt remaining delays).2.1
          = tracker := by
  intro remaining
  induction remaining with
  | zero =>
    intro attempt tracker delays e h
    simp [callSingleLoop, ModelResponse.ofError] at h
  | succ n ih =>
    intro attempt tracker delays e h
    rw [callSingleLoop_step] at h ⊢
    cases ha : attempts attempt with
    | ok r =>
      rw [ha] at h
      simp at h
    | error e' =>
      rw [ha] at h
      dsimp only at h ⊢
      by_cases hn : n = 0
      · rw [if_pos hn] at h ⊢
        simp [ModelResponse.ofError] at h
        subst h
        exact ⟨rfl, rfl⟩
      · rw [if_neg hn] at h ⊢
        exact ih _ _ _ _ h

/-! Claim theorems. -/

/-- C1: a round converges iff at least one response is error-free and
every error-free response agreed; an empty or all-errored results list
never converges; roster [A, B] with A agreeing and B erroring converges
while A agreeing and B disagreeing does not.  (Error-free is the code's
own test `not r.error`, i.e. `pyTruthy r.error = false`.) -/
theorem all_agreed_characterization :
    (∀ results : List ModelResponse,
      all_agreed results = true ↔
        ((∃ r ∈ results, pyTruthy r.error = false) ∧
          ∀ r ∈ results, pyTruthy r.error = false → r.agreed = true))
    ∧ all_agreed [] = false
    ∧ (∀ results : List ModelResponse,
        (∀ r ∈ results, pyTruthy r.error = true) → all_agreed results = false)
    ∧ all_agreed [respAgreeA, respErrorB] = true
    ∧ all_agreed [respAgreeA, respDisagreeB] = false := by
  have key : ∀ results : List ModelResponse,
      all_agreed results = true ↔
        ((∃ r ∈ results, pyTruthy r.error = false) ∧
          ∀ r ∈ results, pyTruthy r.error = false → r.agreed = true) := by
    intro results
    unfold all_agreed successfulOf
    by_cases h : results.filter (fun r => !pyTruthy r.error) = []
    · rw [h]
      simp only [List.isEmpty_nil, if_pos]
      have hall : ∀ r ∈ results, pyTruthy r.error = true := by
        intro r hr
        by_contra hc
        have : r ∈ results.filter (fun r => !pyTruthy r.error) :=
          List.mem_filter.mpr ⟨hr, by simp [Bool.not_eq_true] at hc ⊢; exact hc⟩
        simp [h] at this
      constructor
      · intro hfalse; exact absurd hfalse (by simp)
      · rintro ⟨⟨r, hr, hre⟩, -⟩
        exact absurd (hall r hr) (by simp [hre])
    · have hne : (results.filter (fun r => !pyTruthy r.error)).isEmpty
          = false := by
        simpa [List.isEmpty_iff] using h
      rw [hne]
      simp only [Bool.false_eq_true, if_false, List.all_eq_true,
        List.mem_filter]
      constructor
      · intro hall
        refine ⟨?_, ?_⟩
        · obtain ⟨r, hr⟩ := List.exists_mem_of_ne_nil _ h
          exact ⟨r, (List.mem_filter.mp hr).1,
            by simpa using (List.mem_filter.mp hr).2⟩
        · intro r hr hre
          exact hall r ⟨hr, by simp [hre]⟩
      · rintro ⟨-, hall⟩ r ⟨hr, hre⟩
        exact hall r hr (by simpa using hre)
  refine ⟨key, by decide, ?_, by decide, by decide⟩
  · intro results hall
    rw [Bool.eq_false_iff]
    intro htrue
    obtain ⟨⟨r, hr, hre⟩, -⟩ := (key results).mp htrue
    exact absurd (hall r hr) (by simp [hre])

/-- C1 witness: the characterization applied to a concrete all-errored
round, which indeed does not converge. -/
theorem all_agreed_characterization_witness :
    all_agreed [respErrorB] = false :=
  all_agreed_characterization.2.2.1 [respErrorB] (by decide)

/-- C2 counterexample: with both critics extracting distinct artifacts
and critic2 completing first, the code's scan over the collected results
picks critic2's artifact, while a roster-declaration-order scan would
pick critic1's — so the claim's "roster-declaration order (not
completion order)" is false of the code. -/
theorem selectNextSpec_completion_order_counterexample :
    selectNextSpec "X" (call_models_parallel rosterTwo respondTwo swappedOrder)
      = "A2"
    ∧ selectNextSpec "X" (rosterTwo.map respondTwo) = "A1"
    ∧ ¬ ("A2" : String) = "A1" :=
  ⟨by decide, by decide, by decide⟩

/-- C2 amended: the next artifact is the first response, in the order
the results list was collected (completion order), that is error-free
and has a non-empty extracted artifact; if none exists the artifact is
unchanged.  The spec's scenario (critic1 agrees with no extraction,
critic2 extracts "Revised V2") yields `converged = false` and next
artifact "Revised V2" under either completion order. -/
theorem selectNextSpec_first_in_collected_order :
    (∀ (spec : String) (l1 : List ModelResponse) (r : ModelResponse)
        (l2 : List ModelResponse) (s : String),
      (∀ x ∈ l1, pyTruthy x.error = true ∨ pyTruthy x.spec = false) →
      pyTruthy r.error = false → r.spec = some s → ¬ s = "" →
      selectNextSpec spec (l1 ++ r :: l2) = s)
    ∧ (∀ (spec : String) (results : List ModelResponse),
        (∀ r ∈ results, pyTruthy r.error = false → pyTruthy r.spec = false) →
        selectNextSpec spec results = spec)
    ∧ all_agreed [respCritic1Agrees, respCritic2Revises] = false
    ∧ selectNextSpec "X" [respCritic1Agrees, respCritic2Revises] = "Revised V2"
    ∧ selectNextSpec "X" [respCritic2Revises, respCritic1Agrees]
        = "Revised V2" := by
  refine ⟨?_, ?_, by decide, by decide, by decide⟩
  · intro spec l1 r l2 s h1 herr hs hne
    unfold selectNextSpec
    rw [successfulOf_append, successfulOf_cons_keep r l2 herr]
    refine getLatestSpec_append_first spec _ r _ s ?_ hs hne
    intro x hx
    obtain ⟨hmem, hxerr⟩ := mem_successfulOf hx
    rcases h1 x hmem with h | h
    · rw [hxerr] at h; exact absurd h (by simp)
    · exact h
  · intro spec results h
    refine getLatestSpec_unchanged spec (successfulOf results) ?_
    intro r hr
    obtain ⟨hmem, herr⟩ := mem_successfulOf hr
    exact h r hmem herr

/-- C2 witness: the first-match rule applied at a concrete split. -/
theorem selectNextSpec_first_in_collected_order_witness :
    selectNextSpec "X" ([respCritic1Agrees] ++ respCritic2Revises :: []) =
      "Revised V2" :=
  selectNextSpec_first_in_collected_order.1 "X" [respCritic1Agrees]
    respCritic2Revises [] "Revised V2" (by decide) (by decide) (by decide)
    (by decide)

/-- C3 counterexample: with completion order critic2-then-critic1 the
returned list is not in roster-declaration order (though it is a
permutation of the per-roster responses, of length 2). -/
theorem call_models_parallel_order_counterexample :
    ¬ call_models_parallel rosterTwo respondTwo swappedOrder
        = rosterTwo.map respondTwo
    ∧ List.Perm swappedOrder (List.finRange rosterTwo.length)
    ∧ (call_models_parallel rosterTwo respondTwo swappedOrder).length = 2 :=
  ⟨by decide, by decide, by decide⟩

/-- C3 amended: for every roster and completion order (a permutation of
the roster indices), the round returns exactly N responses, one per
roster entry — a permutation of the roster-order responses — but in
completion order, not necessarily roster-declaration order. -/
theorem call_models_parallel_permutation (models : List String)
    (respond : String → ModelResponse) (order : List (Fin models.length))
    (h : List.Perm order (List.finRange models.length)) :
    (call_models_parallel models respond order).length = models.length
    ∧ List.Perm (call_models_parallel models respond order)
        (models.map respond) := by
  have hperm : List.Perm (call_models_parallel models respond order)
      ((List.finRange models.length).map (fun i => respond (models.get i))) :=
    List.Perm.map _ h
  have heq : (List.finRange models.length).map
      (fun i => respond (models.get i)) = models.map respond := by
    rw [show (fun i => respond (models.get i)) = respond ∘ models.get from rfl,
      ← List.map_map, List.finRange_map_get]
  rw [heq] at hperm
  exact ⟨hperm.length_eq.trans (by simp), hperm⟩

/-- C3 witness: the permutation property at the concrete swapped order. -/
theorem call_models_parallel_permutation_witness :
    (call_models_parallel rosterTwo respondTwo swappedOrder).length
      = rosterTwo.length
    ∧ List.Perm (call_models_parallel rosterTwo respondTwo swappedOrder)
        (rosterTwo.map respondTwo) :=
  call_models_parallel_permutation rosterTwo respondTwo swappedOrder
    (by decide)

/-- C4: a first-attempt success returns immediately with no error and no
delays; two failures followed by a success return a success response
with no error after delays BASE_DELAY then 2·BASE_DELAY (BASE_DELAY·2^k
for 0-indexed attempt k); three failures return the final attempt's
error as an error response after the same two delays.  The invocation is
a total function, so no exception escapes. -/
theorem call_single_model_retry_backoff (model : String)
    (tracker : CostTracker) (attempts : Nat → Except String LLMResult) :
    (∀ r, attempts 0 = Except.ok r →
      (call_single_model model attempts tracker).1.error = none ∧
      (call_single_model model attempts tracker).2.2 = [])
    ∧ (∀ e0 e1 r, attempts 0 = Except.error e0 →
        attempts 1 = Except.error e1 → attempts 2 = Except.ok r →
        (call_single_model model attempts tracker).1.error = none ∧
        (call_single_model model attempts tracker).2.2 =
          [RETRY_BASE_DELAY, 2 * RETRY_BASE_DELAY])
    ∧ (∀ e0 e1 e2, attempts 0 = Except.error e0 →
        attempts 1 = Except.error e1 → attempts 2 = Except.error e2 →
        (call_single_model model attempts tracker).1 =
          ModelResponse.ofError model (some e2) ∧
        (call_single_model model attempts tracker).2.2 =
          [RETRY_BASE_DELAY, 2 * RETRY_BASE_DELAY]) := by
  refine ⟨?_, ?_, ?_⟩
  · intro r h0
    unfold call_single_model MAX_RETRIES
    rw [show (3 : Nat) = 2 + 1 from rfl, callSingleLoop_step, h0]
    exact ⟨rfl, rfl⟩
  · intro e0 e1 r h0 h1 h2
    unfold call_single_model MAX_RETRIES
    rw [show (3 : Nat) = 2 + 1 from rfl, callSingleLoop_step, h0]
    simp only [show ¬ (2 : Nat) = 0 by norm_num, if_false]
    rw [show (2 : Nat) = 1 + 1 from rfl, callSingleLoop_step, h1]
    simp only [show ¬ (1 : Nat) = 0 by norm_num, if_false]
    rw [show (1 : Nat) = 0 + 1 from rfl, callSingleLoop_step, h2]
    refine ⟨rfl, ?_⟩
    show [] ++ [RETRY_BASE_DELAY * 2 ^ 0] ++ [RETRY_BASE_DELAY * 2 ^ 1] = _
    simp [mul_comm]
  · intro e0 e1 e2 h0 h1 h2
    unfold call_single_model MAX_RETRIES
    rw [show (3 : Nat) = 2 + 1 from rfl, callSingleLoop_step, h0]
    simp only [show ¬ (2 : Nat) = 0 by norm_num, if_false]
    rw [show (2 : Nat) = 1 + 1 from rfl, callSingleLoop_step, h1]
    simp only [show ¬ (1 : Nat) = 0 by norm_num, if_false]
    rw [show (1 : Nat) = 0 + 1 from rfl, callSingleLoop_step, h2]
    simp only [if_pos rfl]
    refine ⟨rfl, ?_⟩
    show [] ++ [RETRY_BASE_DELAY * 2 ^ 0] ++ [RETRY_BASE_DELAY * 2 ^ 1] = _
    simp [mul_comm]

/-- C4 witness: fail, fail, succeed at a concrete behaviour — success
with no error after delays BASE_DELAY and 2·BASE_DELAY. -/
theorem call_single_model_retry_backoff_witness :
    (call_single_model "gpt-5.2" failTwiceAttempts emptyTracker).1.error = none
    ∧ (call_single_model "gpt-5.2" failTwiceAttempts emptyTracker).2.2 =
        [RETRY_BASE_DELAY, 2 * RETRY_BASE_DELAY] :=
  (call_single_model_retry_backoff "gpt-5.2" emptyTracker
    failTwiceAttempts).2.1 "boom" "boom" ⟨"verdict [AGREE]", none⟩ rfl rfl rfl

/-- C5: an error response (error field set) has `agreed = false`, no
extracted spec, zero recorded cost and token counts, and the cost
tracker is returned untouched — the ledger is never called on the error
path. -/
theorem call_single_model_error_invariants (model : String)
    (tracker : CostTracker) (attempts : Nat → Except String LLMResult)
    (e : String)
    (h : (call_single_model model attempts tracker).1.error = some e) :
    (call_single_model model attempts tracker).1.agreed = false
    ∧ (call_single_model model attempts tracker).1.spec = none
    ∧ (call_single_model model attempts tracker).1.cost = 0
    ∧ (call_single_model model attempts tracker).1.input_tokens = 0
    ∧ (call_single_model model attempts tracker).1.output_tokens = 0
    ∧ (call_single_model model attempts tracker).2.1 = tracker := by
  obtain ⟨h1, h2⟩ :=
    callSingleLoop_error_inv model attempts MAX_RETRIES 0 tracker [] e h
  have hresp : (call_single_model model attempts tracker).1 =
      ModelResponse.ofError model (some e) := h1
  have htr : (call_single_model model attempts tracker).2.1 = tracker := h2
  refine ⟨?_, ?_, ?_, ?_, ?_, htr⟩ <;> rw [hresp] <;> rfl

/-- C5 witness: a critic failing all three attempts contributes nothing
to the ledger and has the invariant fields. -/
theorem call_single_model_error_invariants_witness :
    (call_single_model "gpt-5.2" allFailAttempts emptyTracker).1.agreed = false
    ∧ (call_single_model "gpt-5.2" allFailAttempts emptyTracker).1.spec = none
    ∧ (call_single_model "gpt-5.2" allFailAttempts emptyTracker).1.cost = 0
    ∧ (call_single_model "gpt-5.2" allFailAttempts
        emptyTracker).1.input_tokens = 0
    ∧ (call_single_model "gpt-5.2" allFailAttempts
        emptyTracker).1.output_tokens = 0
    ∧ (call_single_model "gpt-5.2" allFailAttempts emptyTracker).2.1
        = emptyTracker :=
  call_single_model_error_invariants "gpt-5.2" emptyTracker allFailAttempts
    "boom" rfl

/-- C6: `add` computes inTokens/1e6·inputPrice + outTokens/1e6·outputPrice
with the price tuple looked up by critic id (default tuple for unknown
ids), increments the cumulative totals and the per-critic subtotal by
exactly this call's tokens and cost (other subtotals untouched), two
sequential adds for one critic sum linearly in the subtotal, and
`add("gpt-5.2", 1000000, 0)` with price {input: 1.75, output: 14.00}
returns 1.75. -/
theorem costTracker_add_spec :
    (∀ (t : CostTracker) (m : String) (i o : Nat),
      (t.add m i o).1 =
        (i : ℚ) / 1000000 * ((MODEL_COSTS m).getD DEFAULT_COST).input
        + (o : ℚ) / 1000000 * ((MODEL_COSTS m).getD DEFAULT_COST).output)
    ∧ (∀ (t : CostTracker) (m : String) (i o : Nat),
        (t.add m i o).2.total_input_tokens = t.total_input_tokens + i
        ∧ (t.add m i o).2.total_output_tokens = t.total_output_tokens + o
        ∧ (t.add m i o).2.total_cost = t.total_cost + (t.add m i o).1)
    ∧ (∀ (t : CostTracker) (m : String) (i o : Nat),
        (t.add m i o).2.by_model m =
          some ⟨((t.by_model m).getD ⟨0, 0, 0⟩).input_tokens + i,
            ((t.by_model m).getD ⟨0, 0, 0⟩).output_tokens + o,
            ((t.by_model m).getD ⟨0, 0, 0⟩).cost + (t.add m i o).1⟩)
    ∧ (∀ (t : CostTracker) (m m' : String) (i o : Nat), ¬ m' = m →
        (t.add m i o).2.by_model m' = t.by_model m')
    ∧ (∀ (t : CostTracker) (m : String) (i o i' o' : Nat),
        ((t.add m i o).2.add m i' o').2.by_model m =
          some ⟨((t.by_model m).getD ⟨0, 0, 0⟩).input_tokens + i + i',
            ((t.by_model m).getD ⟨0, 0, 0⟩).output_tokens + o + o',
            ((t.by_model m).getD ⟨0, 0, 0⟩).cost + (t.add m i o).1
              + ((t.add m i o).2.add m i' o').1⟩)
    ∧ MODEL_COSTS "gpt-5.2" = some ⟨1.75, 14.00⟩
    ∧ MODEL_COSTS "unknown-critic" = none
    ∧ (emptyTracker.add "gpt-5.2" 1000000 0).1 = 1.75 := by
  refine ⟨fun t m i o => rfl, fun t m i o => ⟨rfl, rfl, rfl⟩, ?_, ?_, ?_,
    ?_, ?_, ?_⟩
  · intro t m i o
    simp [CostTracker.add]
  · intro t m m' i o h
    simp [CostTracker.add, h]
  · intro t m i o i' o'
    simp [CostTracker.add]
  · rfl
  · rfl
  · show (1000000 : ℚ) / 1000000 * (1.75 : ℚ)
        + (0 : ℚ) / 1000000 * (14.00 : ℚ) = 1.75
    norm_num

/-- C6 witness: an add for one critic leaves another critic's subtotal
untouched, at concrete inputs. -/
theorem costTracker_add_spec_witness :
    (emptyTracker.add "criticA" 5 7).2.by_model "gpt-5.2" =
      emptyTracker.by_model "gpt-5.2" :=
  costTracker_add_spec.2.2.2.1 emptyTracker "criticA" "gpt-5.2" 5 7 (by decide)

/-- C7: when both markers occur and the begin marker's first occurrence
precedes the end marker's, extraction returns the stripped slice
strictly between them; a missing marker yields absent; the spec's three
examples evaluate as stated. -/
theorem extract_spec_between_first_markers :
    (∀ (text : List Char) (b e : Nat), firstOcc SPEC_OPEN text = some b →
      firstOcc SPEC_CLOSE text = some e → b < e →
      extractCore text = some (pyStrip ((text.drop (b + SPEC_OPEN.length)).take
        (e - (b + SPEC_OPEN.length)))))
    ∧ (∀ text : List Char,
        firstOcc SPEC_OPEN text = none ∨ firstOcc SPEC_CLOSE text = none →
        extractCore text = none)
    ∧ extract_spec "prefix [SPEC]Revised X[/SPEC] suffix" = some "Revised X"
    ∧ extract_spec "no markers" = none
    ∧ extract_spec "see [SPEC] only begin" = none := by
  refine ⟨?_, ?_, by decide, by decide, by decide⟩
  · intro text b e hb he _
    simp [extractCore, hb, he]
  · intro text h
    rcases h with h | h
    · simp [extractCore, h]
    · rw [extractCore, h]
      cases firstOcc SPEC_OPEN text <;> rfl

/-- C7 witness: the slice rule applied to the spec's example text at its
concrete marker positions 7 and 22. -/
theorem extract_spec_between_first_markers_witness :
    firstOcc SPEC_OPEN "prefix [SPEC]Revised X[/SPEC] suffix".data = some 7 ∧
    firstOcc SPEC_CLOSE "prefix [SPEC]Revised X[/SPEC] suffix".data = some 22 ∧
    extractCore "prefix [SPEC]Revised X[/SPEC] suffix".data =
      some (pyStrip (("prefix [SPEC]Revised X[/SPEC] suffix".data.drop
        (7 + SPEC_OPEN.length)).take (22 - (7 + SPEC_OPEN.length)))) :=
  ⟨by decide, by decide,
    extract_spec_between_first_markers.1 _ 7 22 (by decide) (by decide)
      (by decide)⟩

/-- C8 counterexample: on a text whose end marker (position 0) precedes
its begin marker (position 7), the code returns a present empty
extraction, not absent — so "extract returns absent" is false of the
code. -/
theorem extract_spec_end_before_begin_counterexample :
    firstOcc SPEC_CLOSE "[/SPEC][SPEC]".data = some 0
    ∧ firstOcc SPEC_OPEN "[/SPEC][SPEC]".data = some 7
    ∧ extract_spec "[/SPEC][SPEC]" = some ""
    ∧ ¬ extract_spec "[/SPEC][SPEC]" = none :=
  ⟨by decide, by decide, by decide, by decide⟩

/-- C8 amended: when the first end-marker occurrence precedes the first
begin-marker occurrence, extraction returns the present-but-empty
extraction `some ""` (the Python slice clamps to empty and strips to
empty), rather than failing closed to absent. -/
theorem extract_spec_end_before_begin_empty (text : List Char) (b e : Nat)
    (hb : firstOcc SPEC_OPEN text = some b)
    (he : firstOcc SPEC_CLOSE text = some e) (h : e < b) :
    extractCore text = some [] := by
  have h6 : SPEC_OPEN.length = 6 := by decide
  have hz : e - (b + SPEC_OPEN.length) = 0 := by omega
  simp [extractCore, hb, he, hz, pyStrip]

/-- C8 amended witness: the empty present extraction at the concrete
counterexample text. -/
theorem extract_spec_end_before_begin_empty_witness :
    extractCore "[/SPEC][SPEC]".data = some [] :=
  extract_spec_end_before_begin_empty "[/SPEC][SPEC]".data 7 0 (by decide)
    (by decide) (by decide)

/-- C9: creating session "s1" with artifact X, executing and persisting
one round (round number 1), then loading "s1" gives round number 2,
artifact equal to the round's selected next artifact, and a history of
length exactly 1 recording round number, convergence flag and per-critic
{model, agreed, error} tuples; in general each persisted round advances
the round number by exactly 1 and appends exactly one history entry
(history is never rewritten), and save/load round-trips the full
record. -/
theorem session_roundtrip_after_one_round :
    (∀ (store : SessionStore) (x : String) (ms : List String)
        (f p : Option String) (preserve : Bool) (now1 now2 : String)
        (results : List ModelResponse),
      ∃ σ : SessionState,
        loadSession "s1"
            (saveSession
              (updateSessionAfterRound
                (createSession "s1" x 1 ms f p preserve now1)
                1 (selectNextSpec x results) (all_agreed results) results)
              now2
              (saveSession (createSession "s1" x 1 ms f p preserve now1) now1
                store))
          = some σ
        ∧ σ.round = 2
        ∧ σ.spec = selectNextSpec x results
        ∧ σ.history.length = 1
        ∧ σ.history = [{ round := 1, all_agreed := all_agreed results,
                         models := results.map (fun r =>
                           { model := r.model, agreed := r.agreed,
                             error := r.error }) }])
    ∧ (∀ (s : SessionState) (n : Nat) (l : String) (a : Bool)
        (res : List ModelResponse),
        (updateSessionAfterRound s n l a res).round = n + 1
        ∧ (updateSessionAfterRound s n l a res).history = s.history ++
            [{ round := n, all_agreed := a,
               models := res.map (fun r =>
                 { model := r.model, agreed := r.agreed,
                   error := r.error }) }])
    ∧ (∀ (s : SessionState) (now : String) (store : SessionStore),
        loadSession s.session_id (saveSession s now store) =
          some { s with updated_at := now }) := by
  refine ⟨?_, fun s n l a res => ⟨rfl, rfl⟩, ?_⟩
  · intro store x ms f p preserve now1 now2 results
    exact ⟨_, rfl, rfl, rfl, rfl, rfl⟩
  · intro s now store
    simp [loadSession, saveSession]

/-- C10: a response whose extraction is present but empty is skipped by
next-artifact selection exactly like an absent extraction; a non-empty
incoming artifact never selects the empty string; the artifact is
unchanged unless some error-free response has a non-empty extraction;
and both adjacent markers and an end-before-begin marker order make
extraction yield the (present) empty string. -/
theorem selectNextSpec_skips_empty_extraction :
    (∀ (spec : String) (r : ModelResponse) (l : List ModelResponse),
      r.spec = some "" → getLatestSpec spec (r :: l) = getLatestSpec spec l)
    ∧ (∀ (spec : String) (results : List ModelResponse),
        ¬ spec = "" → ¬ selectNextSpec spec results = "")
    ∧ (∀ (spec : String) (results : List ModelResponse),
        (∀ r ∈ results, pyTruthy r.error = false → pyTruthy r.spec = false) →
        selectNextSpec spec results = spec)
    ∧ extract_spec "[SPEC][/SPEC]" = some ""
    ∧ extract_spec "critique [/SPEC] stuff [SPEC] more" = some "" := by
  refine ⟨?_, ?_, ?_, by decide, by decide⟩
  · intro spec r l h
    exact getLatestSpec_cons_skip spec r l (by simp [pyTruthy, h])
  · intro spec results h
    exact getLatestSpec_ne_empty spec (successfulOf results) h
  · intro spec results h
    refine getLatestSpec_unchanged spec (successfulOf results) ?_
    intro r hr
    obtain ⟨hmem, herr⟩ := mem_successfulOf hr
    exact h r hmem herr

/-- C10 witness: the unchanged-artifact and never-empty parts at
concrete inputs. -/
theorem selectNextSpec_skips_empty_extraction_witness :
    selectNextSpec "X" [respCritic1Agrees,
      ModelResponse.ofError "B" (some "boom")] = "X"
    ∧ ¬ selectNextSpec "X" [respCritic1Agrees] = "" :=
  ⟨selectNextSpec_skips_empty_extraction.2.2.1 "X" _ (by decide),
    selectNextSpec_skips_empty_extraction.2.1 "X" [respCritic1Agrees]
      (by decide)⟩
